import Mathlib

/-!
Shallow embedding of the uploadthing-file-viewer boundary layer: the
server-side listing/deletion facade (route handlers GET, DELETE, PATCH)
and the client-side viewer logic (the FileViewer component: classification,
load, filtering, counts, single and bulk delete).

JavaScript truthiness on the fields involved (fallbacks written as x || y,
the !key check, optional chaining) is made explicit via Option and small
helpers, and the JS string primitives used by the classifier (split,
toLowerCase, startsWith) are modelled on the character list so that every
definition evaluates inside the kernel.
-/

namespace UTViewer

/-- The supported classifications. An `Option FileType` models the
return type of getFileType, with `none` standing for null, that is
"unknown"/unsupported. -/
inductive FileType where
  | image
  | video
  | audio
  | text
  deriving DecidableEq, Repr, Fintype

/-- The FileData interface of the viewer. Optional TS fields become
`Option`; the `type` field carries the MIME type when present. -/
structure FileData where
  key : String
  name : String
  fileName : Option String := none
  url : String := ""
  size : Option Nat := none
  fileSize : Option Nat := none
  type : Option String := none
  fileType : Option FileType := none
  deriving DecidableEq, Repr

/-- Split a character list on a separator, JS split style: always at
least one (possibly empty) chunk, and empty chunks between adjacent
separators are kept. -/
def splitChars (sep : Char) : List Char → List (List Char)
  | [] => [[]]
  | c :: cs =>
    if c = sep then [] :: splitChars sep cs
    else
      match splitChars sep cs with
      | [] => [[c]]
      | chunk :: rest => (c :: chunk) :: rest

/-- JS s.split(sep) for a single-character separator. -/
def jsSplit (sep : Char) (s : String) : List String :=
  (splitChars sep s.data).map (fun cs => ⟨cs⟩)

/-- JS s.toLowerCase() (ASCII case mapping, which covers every character
the classifier compares against). -/
def jsToLower (s : String) : String :=
  ⟨s.data.map Char.toLower⟩

/-- JS s.startsWith(p). -/
def jsStartsWith (s p : String) : Bool :=
  p.data.isPrefixOf s.data

/-- JS a || b on a string: falls through on the empty string (falsy). -/
def jsOr (a b : String) : String :=
  if a = "" then b else a

/-- JS a || b where a is a possibly-absent number: falls through on
undefined and on 0 (both falsy). -/
def jsOrNat (a : Option Nat) (b : Nat) : Nat :=
  match a with
  | some n => if n = 0 then b else n
  | none => b

/-- JS m?.startsWith(p) used in boolean position: undefined is falsy. -/
def mimeStartsWith (m : Option String) (p : String) : Bool :=
  match m with
  | some s => jsStartsWith s p
  | none => false

def imageExtensions : List String := ["jpg", "jpeg", "png", "gif", "webp", "svg", "bmp"]

def videoExtensions : List String := ["mp4", "avi", "mov", "wmv", "flv", "webm", "mkv"]

def audioExtensions : List String := ["mp3", "wav", "ogg", "flac", "aac", "m4a"]

def textExtensions : List String := ["txt", "md", "rtf", "log"]

/-- The lowercased extension read by the classifier:
file.name.split(.).pop()?.toLowerCase() followed by extension || empty. -/
def lowerExt (name : String) : String :=
  jsToLower ((jsSplit '.' name).getLastD (""))

/-- The lowercased MIME type read by the classifier:
file.type?.toLowerCase(). -/
def lowerMime (type? : Option String) : Option String :=
  type?.map jsToLower

/-- The getFileType function of the viewer: MIME-prefix check or fixed
extension set, per category, in the order image, video, audio, text;
`none` (null) for unsupported formats. -/
def getFileType (file : FileData) : Option FileType :=
  let extension := jsToLower ((jsSplit '.' file.name).getLastD (""))
  let mimeType := file.type.map jsToLower
  if mimeStartsWith mimeType ("image/") || imageExtensions.contains extension then
    some .image
  else if mimeStartsWith mimeType ("video/") || videoExtensions.contains extension then
    some .video
  else if mimeStartsWith mimeType ("audio/") || audioExtensions.contains extension then
    some .audio
  else if mimeStartsWith mimeType ("text/") || textExtensions.contains extension then
    some .text
  else
    none

/-- The classification as a function of the two inputs it inspects: the
lowercased MIME type and the lowercased extension. -/
def classify (mime : Option String) (ext : String) : Option FileType :=
  if mimeStartsWith mime ("image/") || imageExtensions.contains ext then some .image
  else if mimeStartsWith mime ("video/") || videoExtensions.contains ext then some .video
  else if mimeStartsWith mime ("audio/") || audioExtensions.contains ext then some .audio
  else if mimeStartsWith mime ("text/") || textExtensions.contains ext then some .text
  else none

/-- Modelled from the spec: an explicit ordered list of (predicate, type)
pairs; each predicate accepts a record whose MIME prefix matches or whose
lowercased extension is in the per-type set. -/
def typePredicates : List ((Option String → String → Bool) × FileType) :=
  [ (fun mime ext => mimeStartsWith mime ("image/") || imageExtensions.contains ext, .image),
    (fun mime ext => mimeStartsWith mime ("video/") || videoExtensions.contains ext, .video),
    (fun mime ext => mimeStartsWith mime ("audio/") || audioExtensions.contains ext, .audio),
    (fun mime ext => mimeStartsWith mime ("text/") || textExtensions.contains ext, .text) ]

/-- Modelled from the spec: the pairs are evaluated in fixed order, first
match wins, default unknown (`none`). -/
def firstMatch (pairs : List ((Option String → String → Bool) × FileType))
    (mime : Option String) (ext : String) : Option FileType :=
  match pairs with
  | [] => none
  | (p, t) :: rest => if p mime ext then some t else firstMatch rest mime ext

/-- The per-record normalization in the map step of loadFiles: spread of
the record plus fileType from getFileType on the raw record, size from
file.size || file.fileSize || 0, and name from
file.name || file.fileName || the placeholder name. -/
def normalizeFile (file : FileData) : FileData :=
  { file with
    fileType := getFileType file
    size := some (jsOrNat file.size (jsOrNat file.fileSize 0))
    name := jsOr file.name (jsOr (file.fileName.getD ("")) ("İsimsiz dosya")) }

/-- The supportedFiles computation of loadFiles: map then drop records
whose fileType is null. -/
def loadFiles (data : List FileData) : List FileData :=
  (data.map normalizeFile).filter (fun file => file.fileType.isSome)

/-- The filter state of the viewer: one of all, image, video, audio,
text, participants. -/
inductive Filter where
  | all
  | image
  | video
  | audio
  | text
  | participants
  deriving DecidableEq, Repr, Fintype

/-- Body of the files.filter callback in filteredFiles: true for the all
filter, else a comparison of fileType with the filter. -/
def filterMatches (filter : Filter) (file : FileData) : Bool :=
  match filter with
  | .all => true
  | .image => file.fileType = some .image
  | .video => file.fileType = some .video
  | .audio => file.fileType = some .audio
  | .text => file.fileType = some .text
  | .participants => false

/-- filteredFiles: empty for the participants pseudo-filter, else the
filtered list. -/
def filteredFiles (filter : Filter) (files : List FileData) : List FileData :=
  if filter = .participants then []
  else files.filter (fun file => filterMatches filter file)

/-- The fileCounts record recomputed on every render. -/
structure FileCounts where
  all : Nat
  image : Nat
  video : Nat
  audio : Nat
  text : Nat
  deriving DecidableEq, Repr

def fileCounts (files : List FileData) : FileCounts :=
  { all := files.length
    image := (files.filter (fun f => f.fileType = some .image)).length
    video := (files.filter (fun f => f.fileType = some .video)).length
    audio := (files.filter (fun f => f.fileType = some .audio)).length
    text := (files.filter (fun f => f.fileType = some .text)).length }

/-- The component-local state touched by the delete flows. -/
structure ViewerState where
  files : List FileData
  selectedFile : Option FileData := none
  fileToDelete : Option FileData := none
  showDeleteSuccess : Bool := false
  deletedCountInfo : Nat := 0
  isDeletingAll : Bool := false
  showDeleteAllConfirm : Bool := false
  deriving DecidableEq, Repr

/-- The action a scheduled setTimeout performs. -/
inductive TimerAction where
  | hideDeleteSuccess
  deriving DecidableEq, Repr

/-- Observable side effects of the delete handlers: a blocking alert and
a setTimeout of an action after a delay in milliseconds. -/
inductive Effect where
  | alert (msg : String)
  | timer (delayMs : Nat) (action : TimerAction)
  deriving DecidableEq, Repr

def applyTimerAction (a : TimerAction) (s : ViewerState) : ViewerState :=
  match a with
  | .hideDeleteSuccess => { s with showDeleteSuccess := false }

/-- The check selectedFile?.key === file.key. -/
def selectedMatches (selected : Option FileData) (key : String) : Bool :=
  match selected with
  | some sf => sf.key == key
  | none => false

/-- handleDeleteFile. The per-call outcome of the facade delete (the
deleteFile helper, which returns result.success and false on a thrown
error) is abstracted as ok applied to the file key. -/
def handleDeleteFile (ok : String → Bool) (s : ViewerState) (file : FileData) :
    ViewerState × List Effect :=
  if ok file.key then
    ({ s with
        files := s.files.filter (fun f => f.key != file.key)
        fileToDelete := none
        selectedFile := if selectedMatches s.selectedFile file.key then none else s.selectedFile
        deletedCountInfo := 1
        showDeleteSuccess := true },
     [Effect.timer 4000 TimerAction.hideDeleteSuccess])
  else
    (s, [Effect.alert ("Dosya silinirken bir hata oluştu.")])

/-- The for-of loop of handleDeleteAllFiles: on each success, increment
the count and drop the key from the list. -/
def deleteAllLoop (ok : String → Bool) (toDelete : List FileData)
    (files : List FileData) (count : Nat) : Nat × List FileData :=
  match toDelete with
  | [] => (count, files)
  | f :: rest =>
    if ok f.key then
      deleteAllLoop ok rest (files.filter (fun g => g.key != f.key)) (count + 1)
    else
      deleteAllLoop ok rest files count

/-- handleDeleteAllFiles: early return on an empty set, else run the loop
and publish the accumulated count. -/
def handleDeleteAllFiles (ok : String → Bool) (s : ViewerState)
    (filesToDelete : List FileData) : ViewerState × List Effect :=
  if filesToDelete.length = 0 then (s, [])
  else
    let r := deleteAllLoop ok filesToDelete s.files 0
    ({ s with
        files := r.2
        deletedCountInfo := r.1
        showDeleteSuccess := true
        showDeleteAllConfirm := false
        isDeletingAll := false },
     [Effect.timer 4000 TimerAction.hideDeleteSuccess])

/-- The invariant behind the counts: every retained record carries one of
the four supported types. -/
def wellTyped (files : List FileData) : Prop :=
  ∀ f ∈ files, f.fileType.isSome

/-! ### The listing/deletion facade (route.ts, first revision) -/

/-- A file record as returned by the provider listFiles call (only the
properties the handler reads). -/
structure ProviderFile where
  id : String
  key : String
  name : String
  status : String
  customId : Option String := none
  deriving DecidableEq, Repr

/-- The provider list response body; the files field may be absent. -/
structure ListResponse where
  files : Option (List ProviderFile)
  deriving DecidableEq, Repr

/-- Outcome of awaiting utapi.listFiles(): a (possibly null, possibly
files-less) response, or a thrown error. -/
inductive ListOutcome where
  | ok (resp : Option ListResponse)
  | thrown (msg : String)
  deriving DecidableEq, Repr

/-- One reshaped record of the GET response. -/
structure FormattedFile where
  id : String
  key : String
  name : String
  url : String
  status : String
  customId : Option String
  uploadedAt : String
  type : String
  size : Nat
  deriving DecidableEq, Repr

/-- The JSON body (plus HTTP status) of a GET response. -/
structure GetResult where
  status : Nat
  success : Bool
  files : List FormattedFile
  total : Nat
  error : Option String := none
  details : Option String := none
  deriving DecidableEq, Repr

/-- JS file.customId || null: the empty string is falsy. -/
def jsOrNull (a : Option String) : Option String :=
  match a with
  | some s => if s = "" then none else some s
  | none => none

/-- The formattedFiles map of GET; now is the value of the current-time
ISO string at handling time. -/
def formatFile (now : String) (file : ProviderFile) : FormattedFile :=
  { id := file.id
    key := file.key
    name := file.name
    url := ("https://utfs.io/f/") ++ file.key
    status := file.status
    customId := jsOrNull file.customId
    uploadedAt := now
    type := "unknown"
    size := 0 }

/-- The GET handler. -/
def GET (now : String) (outcome : ListOutcome) : GetResult :=
  match outcome with
  | .thrown msg =>
    { status := 500, success := false, files := [], total := 0
      error := some ("Dosyalar yüklenirken hata oluştu"), details := some msg }
  | .ok resp =>
    match resp with
    | none => { status := 200, success := true, files := [], total := 0 }
    | some r =>
      match r.files with
      | none => { status := 200, success := true, files := [], total := 0 }
      | some fs =>
        let formattedFiles := fs.map (formatFile now)
        { status := 200, success := true, files := formattedFiles
          total := formattedFiles.length }

/-- Outcome of awaiting utapi.deleteFiles([fileKey]): a response whose
success flag the handler reads, or a thrown error. -/
inductive DeleteOutcome where
  | ok (success : Bool)
  | thrown (msg : String)
  deriving DecidableEq, Repr

/-- The JSON body (plus HTTP status) of a DELETE response. -/
structure DeleteResult where
  status : Nat
  success : Bool
  message : Option String := none
  deletedKey : Option String := none
  error : Option String := none
  details : Option String := none
  deriving DecidableEq, Repr

/-- The DELETE handler. The key argument is searchParams.get(key), which
is none when absent, and the returned list records the keys passed to the
provider delete operation, in order. The !fileKey check rejects both null
and the empty string. -/
def DELETE (provider : String → DeleteOutcome) (key? : Option String) :
    DeleteResult × List String :=
  match key? with
  | none =>
    ({ status := 400, success := false, error := some ("Dosya anahtarı (key) gerekli") }, [])
  | some k =>
    if k = "" then
      ({ status := 400, success := false, error := some ("Dosya anahtarı (key) gerekli") }, [])
    else
      match provider k with
      | .ok true =>
        ({ status := 200, success := true, message := some ("Dosya başarıyla silindi")
           deletedKey := some k }, [k])
      | .ok false =>
        ({ status := 400, success := false, error := some ("Dosya silinemedi") }, [k])
      | .thrown msg =>
        ({ status := 500, success := false, error := some ("Dosya silinirken hata oluştu")
           details := some msg }, [k])

/-- The JSON body (plus HTTP status) of a PATCH response. -/
structure PatchResult where
  status : Nat
  success : Bool
  message : Option String := none
  updatedKey : Option String := none
  updatedData : Option String := none
  error : Option String := none
  details : Option String := none
  deriving DecidableEq, Repr

/-- The PATCH handler. The body argument is the outcome of awaiting
request.json(), which is parsed before the key check and throws on
malformed JSON; the parsed value is treated as an opaque string. The
returned list records provider mutation calls; the handler makes none. -/
def PATCH (key? : Option String) (body : Except String String) :
    PatchResult × List String :=
  match body with
  | .error msg =>
    ({ status := 500, success := false, error := some ("Dosya güncellenirken hata oluştu")
       details := some msg }, [])
  | .ok b =>
    match key? with
    | none =>
      ({ status := 400, success := false, error := some ("Dosya anahtarı (key) gerekli") }, [])
    | some k =>
      if k = "" then
        ({ status := 400, success := false, error := some ("Dosya anahtarı (key) gerekli") }, [])
      else
        ({ status := 200, success := true, message := some ("Dosya bilgileri güncellendi")
           updatedKey := some k, updatedData := some b }, [])

/-- Concrete records for the spec scenario and the witnesses. -/
def fileA : FileData := { key := "a", name := "photo.jpg" }

def fileB : FileData := { key := "b", name := "song.mp3" }

def fileC : FileData := { key := "c", name := "clip.exe" }

def providerFile0 : ProviderFile :=
  { id := "id0", key := "k0", name := "photo.jpg", status := "Uploaded" }

/-! ### Theorems -/

/-- The classification factors through the pair of inputs it inspects. -/
theorem getFileType_eq_classify (f : FileData) :
    getFileType f = classify (lowerMime f.type) (lowerExt f.name) := rfl

/-- C1: the classification of the viewer is a pure function of the
lowercased MIME type and lowercased filename extension of the record,
equal to the fixed ordered (predicate, type) chain image, video, audio,
text with first match winning and `none` (unknown) as default, and
re-classifying an already-classified record yields the same type. -/
theorem classification_pure_ordered_idempotent (f g : FileData)
    (hm : lowerMime g.type = lowerMime f.type)
    (he : lowerExt g.name = lowerExt f.name) :
    getFileType f = firstMatch typePredicates (lowerMime f.type) (lowerExt f.name)
    ∧ getFileType g = getFileType f
    ∧ getFileType { f with fileType := getFileType f } = getFileType f := by
  refine ⟨rfl, ?_, rfl⟩
  rw [getFileType_eq_classify, getFileType_eq_classify, hm, he]

/-- Witness for C1 at a concrete record. -/
theorem classification_pure_ordered_idempotent_witness :
    getFileType fileA = firstMatch typePredicates (lowerMime fileA.type) (lowerExt fileA.name)
    ∧ getFileType fileA = getFileType fileA
    ∧ getFileType { fileA with fileType := getFileType fileA } = getFileType fileA :=
  classification_pure_ordered_idempotent fileA fileA rfl rfl

/-- C6: in the three-file scenario, the loaded list keeps exactly the
record with key a (image) and the record with key b (audio); the all view
shows exactly those two; the counts ignore the record with key c; and no
filter view contains it. -/
theorem unknown_excluded_from_all_views :
    (loadFiles [fileA, fileB, fileC]).map (fun f => (f.key, f.fileType)) =
      [("a", some FileType.image), ("b", some FileType.audio)]
    ∧ (filteredFiles .all (loadFiles [fileA, fileB, fileC])).map FileData.key = ["a", "b"]
    ∧ fileCounts (loadFiles [fileA, fileB, fileC]) =
        { all := 2, image := 1, video := 0, audio := 1, text := 0 }
    ∧ ∀ filt : Filter, ∀ f ∈ filteredFiles filt (loadFiles [fileA, fileB, fileC]), f.key ≠ "c" := by
  exact ⟨by decide, by decide, by decide, by decide⟩

/-- The bulk-delete loop in closed form: it returns the incoming count
plus the number of successes, and the list with the keys of every
successful deletion filtered out. -/
theorem deleteAllLoop_eq (ok : String → Bool) :
    ∀ (toDelete files : List FileData) (count : Nat),
      deleteAllLoop ok toDelete files count =
        (count + (toDelete.filter (fun f => ok f.key)).length,
         files.filter (fun g =>
           !(((toDelete.filter (fun f => ok f.key)).map FileData.key).contains g.key))) := by
  intro toDelete
  induction toDelete with
  | nil => intro files count; simp [deleteAllLoop]
  | cons f rest ih =>
    intro files count
    cases h : ok f.key with
    | true =>
      simp only [deleteAllLoop, h, if_true, ih, List.filter_cons, List.length_cons,
        List.map_cons, Prod.mk.injEq]
      refine ⟨by omega, ?_⟩
      rw [List.filter_filter]
      refine List.filter_congr fun g _ => ?_
      simp [List.contains_cons, Bool.not_or, Bool.and_comm, bne]
    | false =>
      simp only [deleteAllLoop, h, if_false, ih, List.filter_cons]
      simp [h]

/-- Filtering a list splits its length between matches and non-matches. -/
theorem length_filter_not (p : FileData → Bool) (l : List FileData) :
    (l.filter p).length + (l.filter (fun a => !(p a))).length = l.length := by
  induction l with
  | nil => simp
  | cons a l ih => cases h : p a <;> simp [List.filter_cons, h] <;> omega

/-- Away from the participants pseudo-filter, filteredFiles is a plain
filter. -/
theorem filteredFiles_eq_filter (filt : Filter) (hp : filt ≠ .participants)
    (files : List FileData) :
    filteredFiles filt files = files.filter (fun file => filterMatches filt file) := by
  simp [filteredFiles, hp]

/-- Under key uniqueness, membership of a key in the success-key list is
exactly the success of that record. -/
theorem contains_successKeys (ok : String → Bool) (td tdAll : List FileData)
    (sub : ∀ f ∈ td, f ∈ tdAll) (hnd : (tdAll.map FileData.key).Nodup)
    (g : FileData) (hg : g ∈ td) :
    ((td.filter (fun f => ok f.key)).map FileData.key).contains g.key = ok g.key := by
  cases h : ok g.key with
  | true =>
    have hmem : g.key ∈ (td.filter (fun f => ok f.key)).map FileData.key :=
      List.mem_map_of_mem _ (List.mem_filter.mpr ⟨hg, h⟩)
    simpa [List.contains_eq_any_beq] using
      List.contains_iff_exists_mem_beq.mpr ⟨g.key, hmem, by simp⟩
  | false =>
    rw [Bool.eq_false_iff]
    intro hc
    obtain ⟨k, hk, hbeq⟩ := List.contains_iff_exists_mem_beq.mp hc
    obtain ⟨f, hf, rfl⟩ := List.mem_map.mp hk
    have hfok := (List.mem_filter.mp hf).2
    have hfmem := (List.mem_filter.mp hf).1
    have hgf : g = f :=
      List.inj_on_of_nodup_map hnd (sub g hg) (sub f hfmem) (by simpa using hbeq)
    rw [hgf] at h
    rw [h] at hfok
    exact Bool.false_ne_true hfok

/-- C2: bulk delete over the filtered set runs the whole sequence,
reports a deleted count of N minus the number M of provider-rejected
calls, removes exactly the successful keys from the in-memory list (so
the surviving members of the filtered set are exactly the M failures, and
when the filtered set is the whole list the remaining list is exactly the
failures), and shows the success notice. -/
theorem bulk_delete_reports_failures (ok : String → Bool) (s : ViewerState) (filt : Filter)
    (hp : filt ≠ .participants)
    (hnd : (s.files.map FileData.key).Nodup)
    (hne : filteredFiles filt s.files ≠ []) :
    (handleDeleteAllFiles ok s (filteredFiles filt s.files)).1.deletedCountInfo
        = (filteredFiles filt s.files).length
          - ((filteredFiles filt s.files).filter (fun f => !(ok f.key))).length
    ∧ (handleDeleteAllFiles ok s (filteredFiles filt s.files)).1.files
        = s.files.filter (fun g =>
            !((((filteredFiles filt s.files).filter (fun f => ok f.key)).map
                FileData.key).contains g.key))
    ∧ filteredFiles filt (handleDeleteAllFiles ok s (filteredFiles filt s.files)).1.files
        = (filteredFiles filt s.files).filter (fun f => !(ok f.key))
    ∧ (filteredFiles filt s.files = s.files →
        (handleDeleteAllFiles ok s (filteredFiles filt s.files)).1.files
          = (filteredFiles filt s.files).filter (fun f => !(ok f.key)))
    ∧ (handleDeleteAllFiles ok s (filteredFiles filt s.files)).1.showDeleteSuccess = true := by
  have hlen : (filteredFiles filt s.files).length ≠ 0 := fun h0 => hne (List.length_eq_zero.mp h0)
  have hsub : ∀ f ∈ filteredFiles filt s.files, f ∈ s.files := by
    intro f hf
    rw [filteredFiles_eq_filter filt hp] at hf
    exact (List.mem_filter.mp hf).1
  have key : handleDeleteAllFiles ok s (filteredFiles filt s.files)
      = ({ s with
            files := s.files.filter (fun g =>
              !((((filteredFiles filt s.files).filter (fun f => ok f.key)).map
                  FileData.key).contains g.key))
            deletedCountInfo := ((filteredFiles filt s.files).filter (fun f => ok f.key)).length
            showDeleteSuccess := true
            showDeleteAllConfirm := false
            isDeletingAll := false },
         [Effect.timer 4000 TimerAction.hideDeleteSuccess]) := by
    simp [handleDeleteAllFiles, hlen, deleteAllLoop_eq]
  have hcongr : (filteredFiles filt s.files).filter (fun g =>
        !((((filteredFiles filt s.files).filter (fun f => ok f.key)).map
            FileData.key).contains g.key))
      = (filteredFiles filt s.files).filter (fun f => !(ok f.key)) :=
    List.filter_congr fun g hg => by
      rw [contains_successKeys ok (filteredFiles filt s.files) s.files hsub hnd g hg]
  refine ⟨?_, ?_, ?_, ?_, ?_⟩
  · rw [key]
    have hpart := length_filter_not (fun f => ok f.key) (filteredFiles filt s.files)
    simp only at hpart ⊢
    omega
  · rw [key]
  · rw [key]
    show filteredFiles filt (s.files.filter _) = _
    rw [filteredFiles_eq_filter filt hp, List.filter_filter]
    have hswap : s.files.filter (fun a =>
          filterMatches filt a &&
            !((((filteredFiles filt s.files).filter (fun f => ok f.key)).map
                FileData.key).contains a.key))
        = (s.files.filter (fun file => filterMatches filt file)).filter (fun g =>
            !((((filteredFiles filt s.files).filter (fun f => ok f.key)).map
                FileData.key).contains g.key)) := by
      rw [List.filter_filter]
      exact List.filter_congr fun g _ => by rw [Bool.and_comm]
    rw [hswap, ← filteredFiles_eq_filter filt hp, hcongr]
  · intro hall
    rw [hall] at hcongr
    rw [key, hall]
    exact hcongr
  · rw [key]

/-- Witness for C2: three loaded files, the all view, and a provider that
accepts only the key a: one success out of two attempts. -/
theorem bulk_delete_reports_failures_witness :
    (handleDeleteAllFiles (fun k => k == "a")
        { files := loadFiles [fileA, fileB, fileC] }
        (filteredFiles .all (loadFiles [fileA, fileB, fileC]))).1.deletedCountInfo
      = (filteredFiles .all (loadFiles [fileA, fileB, fileC])).length
        - ((filteredFiles .all (loadFiles [fileA, fileB, fileC])).filter
            (fun f => !(f.key == "a"))).length := by
  exact (bulk_delete_reports_failures (fun k => k == "a")
      { files := loadFiles [fileA, fileB, fileC] } .all (by decide) (by decide) (by decide)).1

/-- C7: a successful single delete drops the record from the list, closes
a matching open detail view, reports count 1 with the success notice and
schedules its dismissal after 4000 ms; a failed one leaves the state
unchanged and raises a blocking alert. -/
theorem single_delete_spec (ok : String → Bool) (s : ViewerState) (file : FileData) :
    (ok file.key = true →
      (handleDeleteFile ok s file).1.files = s.files.filter (fun f => f.key != file.key)
      ∧ ((handleDeleteFile ok s file).1.selectedFile =
          if selectedMatches s.selectedFile file.key then none else s.selectedFile)
      ∧ (handleDeleteFile ok s file).1.deletedCountInfo = 1
      ∧ (handleDeleteFile ok s file).1.showDeleteSuccess = true
      ∧ (handleDeleteFile ok s file).2 = [Effect.timer 4000 TimerAction.hideDeleteSuccess]
      ∧ (applyTimerAction TimerAction.hideDeleteSuccess
          (handleDeleteFile ok s file).1).showDeleteSuccess = false)
    ∧ (ok file.key = false →
      (handleDeleteFile ok s file).1 = s
      ∧ (handleDeleteFile ok s file).2 = [Effect.alert ("Dosya silinirken bir hata oluştu.")]) := by
  constructor <;> intro h <;> simp [handleDeleteFile, h, applyTimerAction]

/-- Witness for C7: one success and one failure at concrete inputs. -/
theorem single_delete_spec_witness :
    (handleDeleteFile (fun _ => true) { files := [fileA] } fileA).1.files = []
    ∧ (handleDeleteFile (fun _ => false) { files := [fileA] } fileA).1
        = { files := [fileA] } := by
  constructor
  · have h := (single_delete_spec (fun _ => true) { files := [fileA] } fileA).1 rfl
    rw [h.1]
    decide
  · exact ((single_delete_spec (fun _ => false) { files := [fileA] } fileA).2 rfl).1

/-- C10: loading yields only records with a supported type, single and
bulk delete preserve that invariant, and on any such list the all count
is the sum of the image, video, audio and text counts. -/
theorem retained_records_partition (data : List FileData) (ok : String → Bool)
    (s : ViewerState) (file : FileData) (toDelete : List FileData)
    (h : wellTyped s.files) :
    wellTyped (loadFiles data)
    ∧ wellTyped ((handleDeleteFile ok s file).1.files)
    ∧ wellTyped ((handleDeleteAllFiles ok s toDelete).1.files)
    ∧ ∀ l, wellTyped l →
        (fileCounts l).all =
          (fileCounts l).image + (fileCounts l).video + (fileCounts l).audio +
            (fileCounts l).text := by
  refine ⟨?_, ?_, ?_, ?_⟩
  · intro f hf
    exact (List.mem_filter.mp hf).2
  · intro f hf
    have hmem : f ∈ s.files := by
      cases hk : ok file.key <;> simp [handleDeleteFile, hk] at hf
      · exact hf
      · exact hf.1
    exact h f hmem
  · intro f hf
    by_cases h0 : toDelete.length = 0
    · simp [handleDeleteAllFiles, h0] at hf
      exact h f hf
    · simp [handleDeleteAllFiles, h0, deleteAllLoop_eq] at hf
      exact h f hf.1
  · intro l
    induction l with
    | nil => intro _; simp [fileCounts]
    | cons f t ih =>
      intro hl
      obtain ⟨ty, hty⟩ := Option.isSome_iff_exists.mp (hl f (by simp))
      have iht := ih (fun g hg => hl g (by simp [hg]))
      cases ty <;> simp [fileCounts, List.filter_cons, hty] at iht ⊢ <;> omega

/-- Witness for C10 at the scenario list. -/
theorem retained_records_partition_witness :
    wellTyped (loadFiles [fileA, fileB, fileC])
    ∧ (fileCounts (loadFiles [fileA, fileB, fileC])).all
        = (fileCounts (loadFiles [fileA, fileB, fileC])).image
          + (fileCounts (loadFiles [fileA, fileB, fileC])).video
          + (fileCounts (loadFiles [fileA, fileB, fileC])).audio
          + (fileCounts (loadFiles [fileA, fileB, fileC])).text := by
  have h := retained_records_partition [fileA, fileB, fileC] (fun _ => true)
    { files := [] } fileA [] (by simp [wellTyped])
  exact ⟨h.1, h.2.2.2 (loadFiles [fileA, fileB, fileC]) h.1⟩

/-- C3: when the provider response is null or lacks the files field, GET
answers with a plain empty success body, never an error. -/
theorem list_missing_files_ok (now : String) (outcome : ListOutcome)
    (h : outcome = .ok none ∨ ∃ r, outcome = .ok (some r) ∧ r.files = none) :
    GET now outcome = { status := 200, success := true, files := [], total := 0 } := by
  rcases h with h | ⟨r, h, hf⟩
  · rw [h]
    rfl
  · subst h
    obtain ⟨rf⟩ := r
    change rf = none at hf
    subst hf
    rfl

/-- Witness for C3 with an absent response. -/
theorem list_missing_files_ok_witness :
    GET ("2026-10-11T00:00:00.000Z") (.ok none)
      = { status := 200, success := true, files := [], total := 0 } :=
  list_missing_files_ok ("2026-10-11T00:00:00.000Z") (.ok none) (Or.inl rfl)

/-- C4: a delete request whose key is absent or empty gets the 400
validation error and the provider delete is never invoked. -/
theorem delete_missing_key_validation (provider : String → DeleteOutcome)
    (key? : Option String) (h : key? = none ∨ key? = some "") :
    DELETE provider key?
      = ({ status := 400, success := false,
           error := some ("Dosya anahtarı (key) gerekli") }, []) := by
  rcases h with h | h <;> subst h <;> rfl

/-- Witness for C4 with an absent key. -/
theorem delete_missing_key_validation_witness :
    DELETE (fun _ => .ok true) none
      = ({ status := 400, success := false,
           error := some ("Dosya anahtarı (key) gerekli") }, []) :=
  delete_missing_key_validation (fun _ => .ok true) none (Or.inl rfl)

/-- C5: a delete request with a non-empty key calls the provider exactly
once with that key; provider-reported success yields the 200 body with
the deleted key, provider-reported failure yields a 400 client error. -/
theorem delete_nonempty_key_provider (provider : String → DeleteOutcome) (k : String)
    (h : k ≠ "") :
    (DELETE provider (some k)).2 = [k]
    ∧ (provider k = .ok true →
        (DELETE provider (some k)).1
          = { status := 200, success := true, message := some ("Dosya başarıyla silindi"),
              deletedKey := some k })
    ∧ (provider k = .ok false →
        (DELETE provider (some k)).1
          = { status := 400, success := false, error := some ("Dosya silinemedi") }) := by
  refine ⟨?_, ?_, ?_⟩
  · cases hp : provider k with
    | ok b => cases b <;> simp [DELETE, h, hp]
    | thrown m => simp [DELETE, h, hp]
  · intro hp
    simp [DELETE, h, hp]
  · intro hp
    simp [DELETE, h, hp]

/-- Witness for C5 with key abc and an accepting provider. -/
theorem delete_nonempty_key_provider_witness :
    (DELETE (fun _ => .ok true) (some "abc")).2 = ["abc"]
    ∧ (DELETE (fun _ => .ok true) (some "abc")).1
        = { status := 200, success := true, message := some ("Dosya başarıyla silindi"),
            deletedKey := some "abc" } := by
  have h := delete_nonempty_key_provider (fun _ => .ok true) "abc" (by decide)
  exact ⟨h.1, h.2.1 rfl⟩

/-- C8: every record in a GET listing carries the fixed URL template over
its key, the handling-time timestamp, type unknown and size 0, and the
response is a success. -/
theorem list_url_template_and_defaults (now : String) (r : ListResponse)
    (fs : List ProviderFile) (hf : r.files = some fs) (f : FormattedFile)
    (hmem : f ∈ (GET now (.ok (some r))).files) :
    f.url = ("https://utfs.io/f/") ++ f.key
    ∧ f.uploadedAt = now
    ∧ f.type = "unknown"
    ∧ f.size = 0
    ∧ (GET now (.ok (some r))).success = true := by
  obtain ⟨rf⟩ := r
  change rf = some fs at hf
  subst hf
  simp only [GET] at hmem ⊢
  obtain ⟨pf, _, rfl⟩ := List.mem_map.mp hmem
  simp [formatFile]

/-- Witness for C8 on a one-file listing. -/
theorem list_url_template_and_defaults_witness :
    (formatFile ("t0") providerFile0).url
        = ("https://utfs.io/f/") ++ (formatFile ("t0") providerFile0).key
    ∧ (formatFile ("t0") providerFile0).uploadedAt = "t0"
    ∧ (formatFile ("t0") providerFile0).type = "unknown"
    ∧ (formatFile ("t0") providerFile0).size = 0
    ∧ (GET ("t0") (.ok (some { files := some [providerFile0] }))).success = true := by
  exact list_url_template_and_defaults ("t0") { files := some [providerFile0] }
    [providerFile0] rfl (formatFile ("t0") providerFile0) (by simp [GET])

/-- C9 counterexample: a PATCH request with an absent key does not return
success; it gets the 400 validation error. -/
theorem patch_missing_key_not_success :
    (PATCH none (Except.ok ("patch-body"))).1.success = false
    ∧ (PATCH none (Except.ok ("patch-body"))).1.status = 400 := ⟨rfl, rfl⟩

/-- C9 (amended): PATCH never invokes a provider mutation on any request;
every request with a non-empty key and a parseable body returns success
echoing the key and the body, persisting nothing; a request without a key
gets the 400 validation error. -/
theorem patch_stub_echo (key? : Option String) (b : Except String String)
    (k : String) (body : String) (hk : k ≠ "") :
    (PATCH key? b).2 = []
    ∧ PATCH (some k) (.ok body)
        = ({ status := 200, success := true, message := some ("Dosya bilgileri güncellendi"),
             updatedKey := some k, updatedData := some body }, [])
    ∧ (PATCH none (.ok body)).1
        = { status := 400, success := false,
            error := some ("Dosya anahtarı (key) gerekli") } := by
  refine ⟨?_, ?_, rfl⟩
  · rcases b with m | bb
    · rfl
    · rcases key? with _ | k2
      · rfl
      · by_cases h2 : k2 = "" <;> simp [PATCH, h2]
  · simp [PATCH, hk]

/-- Witness for C9 (amended) at concrete inputs. -/
theorem patch_stub_echo_witness :
    (PATCH (some "abc") (Except.ok ("payload"))).2 = []
    ∧ PATCH (some "abc") (.ok ("payload"))
        = ({ status := 200, success := true, message := some ("Dosya bilgileri güncellendi"),
             updatedKey := some "abc", updatedData := some ("payload") }, [])
    ∧ (PATCH none (.ok ("payload"))).1
        = { status := 400, success := false,
            error := some ("Dosya anahtarı (key) gerekli") } :=
  patch_stub_echo (some "abc") (.ok ("payload")) "abc" "payload" (by decide)

end UTViewer
